import Mathlib

/-!
Verification of the smolquery repository's core logic against its
natural-language specification.

The TypeScript sources are shallowly embedded as executable Lean
definitions:

* JavaScript runtime values appearing in payloads and result rows are
  modelled by `JsValue` (with `typeName` for `typeof` and `isFalsy`
  for JS truthiness);
* `Date` objects are modelled by their millisecond timestamps (`Int`);
  the builtin `Date.prototype.toISOString` is modelled by the injective
  encoding `dateToISOString` (the exact ISO text is a JS builtin,
  external to the repository — only injectivity and stringness matter
  here);
* code that throws is modelled with `Except String`, carrying the
  thrown `Error`'s `.message`;
* module-level mutable state (the auth service's current session and
  its `localStorage` entry) is threaded explicitly through an
  `AuthState` record, and the always-succeeding-or-throwing
  `localStorage` collaborator is modelled by a `persistOk : Bool`
  parameter;
* each call-site occurrence of `Date.now()` / `new Date()` within one
  modelled operation is given the single instant `now` carried by the
  operation's environment.
-/

set_option autoImplicit false

namespace SmolQuery

/-- A JavaScript runtime value, as far as the embedded code inspects one:
`undefined`, `null`, booleans, numbers and strings. Rows produced by the
query service carry only numbers and strings. -/
inductive JsValue where
  | undef
  | null
  | bool (b : Bool)
  | num (n : Int)
  | str (s : String)
deriving Repr, DecidableEq

/-- JavaScript `typeof`. -/
def JsValue.typeName : JsValue → String
  | .undef => "undefined"
  | .null => "object"
  | .bool _ => "boolean"
  | .num _ => "number"
  | .str _ => "string"

/-- JavaScript truthiness (negated): `undefined`, `null`, `false`, `0`
and the empty string are falsy. -/
def JsValue.isFalsy : JsValue → Bool
  | .undef => true
  | .null => true
  | .bool b => !b
  | .num n => n == 0
  | .str s => s == ""

/-- A result row: key/value pairs in insertion order, as produced by the
query service (`Record<string, unknown>` restricted to the values the
code actually builds). -/
abbrev Row := List (String × JsValue)

/-- The ASCII part of the JS regex class `\s` (and of the whitespace
stripped by `String.prototype.trim`). The embedded SQL heuristics only
ever meet these characters. -/
def isJsWs (c : Char) : Bool :=
  c == ' ' || c == '\t' || c == '\n' || c == '\r' || c == '\x0b' || c == '\x0c'

/-- `String.prototype.trim`. -/
def trimJs (s : String) : String :=
  String.mk (((s.data.dropWhile isJsWs).reverse.dropWhile isJsWs).reverse)

/-- Whether the first list is a prefix of the second (Boolean). -/
def isPrefixList : List Char → List Char → Bool
  | [], _ => true
  | _ :: _, [] => false
  | a :: as, b :: bs => a == b && isPrefixList as bs

/-- Whether `needle` occurs contiguously inside `hay`. -/
def listHasInfix (needle : List Char) : List Char → Bool
  | [] => needle.isEmpty
  | c :: rest => isPrefixList needle (c :: rest) || listHasInfix needle rest

/-- JS regex word characters (`\w`), used for the `\b` boundary. -/
def isWordChar (c : Char) : Bool :=
  c.isAlphanum || c == '_'

/-- Models the builtin `Date.prototype.toISOString` as an injective
encoding of the millisecond timestamp. The precise ISO-8601 text is
produced by the JS runtime, outside this repository; the embedded code
only stores the result opaquely in rows and payloads. -/
def dateToISOString (ms : Int) : String :=
  "1970-01-01T00:00:00.000Z+ms" ++ toString ms

/-- Digit character for `Number.prototype.toString(36)`. -/
def base36Char (d : Nat) : Char :=
  if d < 10 then Char.ofNat (48 + d) else Char.ofNat (97 + d - 10)

/-- Base-36 digits of `n`, most significant first (`fuel`-bounded
division recursion; `fuel ≥ n` suffices). -/
def base36Aux : Nat → Nat → List Char
  | 0, _ => []
  | _ + 1, 0 => []
  | fuel + 1, n + 1 => base36Aux fuel ((n + 1) / 36) ++ [base36Char ((n + 1) % 36)]

/-- Models `Number.prototype.toString(36)` for the non-negative integers
produced by `Date.now()`. -/
def natToBase36 (n : Nat) : String :=
  if n = 0 then "0" else String.mk (base36Aux (n + 1) n)

/-! ## Query model (src/src/models/Query.ts) -/

/-- `QueryStatus` enum. -/
inductive QueryStatus where
  | draft
  | running
  | completed
  | failed
deriving Repr, DecidableEq

/-- A constructed `Query` instance. Dates are millisecond timestamps;
`name` is `undefined` when `none`; `lastError` is `null` when `none`
(the constructor coerces `undefined` to `null`). -/
structure Query where
  id : String
  sql : String
  name : Option String := none
  createdAt : Int
  updatedAt : Int
  status : QueryStatus := .draft
  lastError : Option String := none
deriving Repr, DecidableEq

/-- A `QueryPayload` as inspected by `Query.fromJSON`. `none` in `id` /
`sql` stands for an absent or non-string field (both fail the same
`typeof` check); `none` in a date field stands for an absent field (the
constructor then uses `new Date()`); `lastError` distinguishes an absent
field (`none`), an explicit `null` (`some none`) and a string
(`some (some s)`). Date strings are represented by the timestamp they
parse to. -/
structure QueryPayload where
  id : Option String := none
  sql : Option String := none
  name : Option String := none
  createdAt : Option Int := none
  updatedAt : Option Int := none
  status : Option QueryStatus := none
  lastError : Option (Option String) := none
deriving Repr, DecidableEq

/-- `Query.fromJSON`. The argument is `none` when the payload is
`null`/`undefined`/not an object. `now` is the instant used by the
constructor's `new Date()` defaults. -/
def Query.fromJSON (j : Option QueryPayload) (now : Int) : Except String Query :=
  match j with
  | none => .error "Invalid Query payload"
  | some p =>
    match p.id, p.sql with
    | some id, some sql =>
      .ok { id := id
            sql := sql
            name := p.name
            createdAt := p.createdAt.getD now
            updatedAt := p.updatedAt.getD now
            status := p.status.getD .draft
            lastError := p.lastError.getD none }
    | _, _ => .error "Query payload missing required fields: id, sql"

/-- `Query.prototype.toJSON`. -/
def Query.toJSON (q : Query) : QueryPayload :=
  { id := some q.id
    sql := some q.sql
    name := q.name
    createdAt := some q.createdAt
    updatedAt := some q.updatedAt
    status := some q.status
    lastError := some q.lastError }

/-- `Query.prototype.validate`: collects the failing required fields
(`!this.id`, then `!this.sql`; both fields are strings here, so JS
falsiness is emptiness) and throws their aggregate message. -/
def Query.validate (q : Query) : Except String Bool :=
  let errors :=
    (if q.id == "" then ["id is required"] else []) ++
    (if q.sql == "" then ["sql is required"] else [])
  if errors.isEmpty then .ok true
  else .error ("Query validation failed: " ++ String.intercalate ", " errors)

/-! ## UserSession model (src/unnamed/part_001, UserSession.ts) -/

/-- A constructed `UserSession`. String fields are `null` when `none`;
`expiresAt` is a `Date` timestamp or `null`. -/
structure UserSession where
  userId : Option String := none
  provider : Option String := none
  accessToken : Option String := none
  refreshToken : Option String := none
  expiresAt : Option Int := none
deriving Repr, DecidableEq

/-- The serialized `UserSessionPayload` produced by
`UserSession.prototype.toJSON` (every field explicitly `null` when
absent; the ISO date string is represented by its timestamp). -/
structure UserSessionPayload where
  userId : Option String := none
  provider : Option String := none
  accessToken : Option String := none
  refreshToken : Option String := none
  expiresAt : Option Int := none
deriving Repr, DecidableEq

/-- `UserSession.prototype.toJSON`. -/
def UserSession.toJSON (s : UserSession) : UserSessionPayload :=
  { userId := s.userId
    provider := s.provider
    accessToken := s.accessToken
    refreshToken := s.refreshToken
    expiresAt := s.expiresAt }

/-- JS falsiness of a `string | null` field (`null`, `undefined` and the
empty string are falsy). -/
def jsFalsyOptStr : Option String → Bool
  | none => true
  | some s => s == ""

/-- `UserSession.prototype.isAuthenticated`, evaluated at instant `now`
(`Date.now()`). A present `expiresAt` is a `Date` object, hence always
truthy, so only the `getTime() < now` comparison matters. -/
def UserSession.isAuthenticated (s : UserSession) (now : Int) : Bool :=
  if jsFalsyOptStr s.accessToken then false
  else
    match s.expiresAt with
    | some e => if e < now then false else true
    | none => true

/-! ## Panel model (src/src/models/Panel.ts) -/

/-- A `PanelPayload` as inspected by the `Panel` constructor, field by
field: the constructor performs no per-field type check except
`typeof payload.order === 'number'`, so `order` keeps the raw runtime
value; `open` is read through `?? true`, collapsing `null` and
`undefined` to `none`. -/
structure PanelPayload where
  id : Option String := none
  type : Option String := none
  title : Option String := none
  openFlag : Option Bool := none
  order : Option JsValue := none
deriving Repr, DecidableEq

/-- The runtime value passed to the `Panel` constructor: any JS value,
of which only objects survive the payload check. -/
inductive PanelInput where
  | undef
  | null
  | bool (b : Bool)
  | num (n : Int)
  | str (s : String)
  | obj (p : PanelPayload)
deriving Repr, DecidableEq

/-- JS truthiness (negated) of a constructor argument. Objects are never
falsy. -/
def PanelInput.isFalsy : PanelInput → Bool
  | .undef => true
  | .null => true
  | .bool b => !b
  | .num n => n == 0
  | .str s => s == ""
  | .obj _ => false

/-- JS `typeof` of a constructor argument (`typeof null` is
`"object"`). -/
def PanelInput.typeName : PanelInput → String
  | .undef => "undefined"
  | .null => "object"
  | .bool _ => "boolean"
  | .num _ => "number"
  | .str _ => "string"
  | .obj _ => "object"

/-- A constructed `Panel`. `id`/`type`/`title` are taken from the
payload unchecked (hence possibly `undefined` = `none`); the Boolean
`open` field of the source is named `openFlag` here because `open` is
reserved in Lean. -/
structure Panel where
  id : Option String
  type : Option String
  title : Option String
  openFlag : Bool
  order : Int
deriving Repr, DecidableEq

/-- The `Panel` constructor:
`if (!payload || typeof payload !== 'object') throw`, then fields with
`open ?? true` and `typeof order === 'number' ? order : 0`. -/
def Panel.construct (v : PanelInput) : Except String Panel :=
  if v.isFalsy || v.typeName != "object" then .error "Invalid Panel payload"
  else
    match v with
    | .obj p =>
      .ok { id := p.id
            type := p.type
            title := p.title
            openFlag := p.openFlag.getD true
            order := match p.order with | some (.num n) => n | _ => 0 }
    | _ => .error "Invalid Panel payload"

/-! ## Query execution service (src/src/services/queryService.ts) -/

/-- A `{name, type}` schema entry. -/
structure SchemaField where
  name : String
  type : String
deriving Repr, DecidableEq

/-- The `QueryResult` shape returned by `executeQuery`. -/
structure QueryResult where
  jobId : Option String := none
  rows : List Row := []
  schema : List SchemaField := []
deriving Repr, DecidableEq

/-- `isSelect`: the regex test `/^\s*select\b/i`. -/
def isSelect (sql : String) : Bool :=
  let t := (sql.data.map Char.toLower).dropWhile isJsWs
  isPrefixList "select".data t &&
    (match t.drop 6 with
     | [] => true
     | c :: _ => !isWordChar c)

/-- Whether the lowercased character list starts with `from`, one or
more whitespace characters, then `numbers` — the anchored part of
`/from\s+numbers/i`. -/
def fromNumbersAt (l : List Char) : Bool :=
  isPrefixList "from".data l &&
    (let rest := l.drop 4
     !(rest.takeWhile isJsWs).isEmpty &&
       isPrefixList "numbers".data (rest.dropWhile isJsWs))

/-- Scanning helper for `hasFromNumbers`. -/
def fromNumbersScan : List Char → Bool
  | [] => false
  | c :: rest => fromNumbersAt (c :: rest) || fromNumbersScan rest

/-- The regex test `/from\s+numbers/i`. -/
def hasFromNumbers (sql : String) : Bool :=
  fromNumbersScan (sql.data.map Char.toLower)

/-- `fakeSchemaFromRows`: for each key of the first row, in insertion
order, a `{name: key, type: typeof value}` entry; empty row sets give an
empty schema. -/
def fakeSchemaFromRows : List Row → List SchemaField
  | [] => []
  | r :: _ => r.map fun kv => { name := kv.1, type := kv.2.typeName }

/-- Environment of one `executeQuery` call: the clock instant used for
every `new Date()` in the call, and the outcome of
`executeBigQueryQuery` — a call into the external `gapi` BigQuery
client, abstracted here by its result or thrown error message (the
in-repo wrapper always throws messages of the form
`BigQuery execution failed: ...` or the gapi-not-loaded message). -/
structure ExecEnv where
  now : Int
  upstream : Except String QueryResult
deriving Repr

/-- The first argument of `executeQuery`: an already-constructed `Query`
instance or a raw payload (`query instanceof Query ? query :
Query.fromJSON(query)`). -/
inductive QueryInput where
  | inst (q : Query)
  | payload (p : Option QueryPayload)
deriving Repr, DecidableEq

/-- The input-normalization step of `executeQuery`. -/
def normalizeQuery (input : QueryInput) (now : Int) : Except String Query :=
  match input with
  | .inst q => .ok q
  | .payload p => Query.fromJSON p now

/-- The query state `executeQuery` leaves behind when it fails before a
`Query` exists: the original instance for instance input, nothing for
payload input. -/
def originalQueryOf (input : QueryInput) : Option Query :=
  match input with
  | .inst q => some q
  | .payload _ => none

/-- The catch-block's `message ? String(message) : String(err)`: the
error's `.message` when non-empty, else the stringification of an
`Error` with empty message. -/
def errToLastError (msg : String) : String :=
  if msg == "" then "Error" else msg

/-- The mock rows for SQL containing `from numbers`:
`Array.from({length: 3}, (_, i) => ({n: i + 1}))`. -/
def numbersMockRows : List Row :=
  (List.range 3).map fun i => [("n", JsValue.num ((i : Int) + 1))]

/-- `executeQuery` (src/src/services/queryService.ts). Returns the
result-or-thrown-error together with the final state of the normalized
`Query` (which the source mutates in place), `none` when construction
failed before a `Query` existed. The mock path's fixed `setTimeout`
delay has no observable effect and is dropped. -/
def executeQuery (input : QueryInput) (session : Option UserSession) (env : ExecEnv) :
    Except String QueryResult × Option Query :=
  match normalizeQuery input env.now with
  | .error e => (.error e, originalQueryOf input)
  | .ok q0 =>
    match q0.validate with
    | .error e => (.error e, some q0)
    | .ok _ =>
      let isAuth := match session with
        | some s => s.isAuthenticated env.now
        | none => false
      let q1 := { q0 with status := QueryStatus.running, updatedAt := env.now }
      if isAuth then
        match env.upstream with
        | .ok r =>
          (.ok r, some { q1 with status := QueryStatus.completed, updatedAt := env.now })
        | .error e =>
          (.error e,
           some { q1 with status := QueryStatus.failed
                          lastError := some (errToLastError e)
                          updatedAt := env.now })
      else
        if !isSelect q1.sql then
          (.ok { jobId := some ("local-" ++ q1.id), rows := [], schema := [] },
           some { q1 with status := QueryStatus.completed, updatedAt := env.now })
        else if hasFromNumbers q1.sql then
          (.ok { jobId := some ("local-" ++ q1.id)
                 rows := numbersMockRows
                 schema := fakeSchemaFromRows numbersMockRows },
           some { q1 with status := QueryStatus.completed, updatedAt := env.now })
        else
          let rows : List Row :=
            [[("raw_sql", JsValue.str (trimJs q1.sql)),
              ("ranAt", JsValue.str (dateToISOString env.now))]]
          (.ok { jobId := some ("local-" ++ q1.id)
                 rows := rows
                 schema := fakeSchemaFromRows rows },
           some { q1 with status := QueryStatus.completed, updatedAt := env.now })

/-! ## Auth service (src/unnamed/part_004, authService.ts) -/

/-- `SignInPayload`: `accessToken` is required; `none` elsewhere stands
for an absent or `null` field (both read through `??`). `expiresIn` is
in seconds. -/
structure SignInPayload where
  provider : Option String := none
  userId : Option String := none
  accessToken : String
  refreshToken : Option String := none
  expiresIn : Option Int := none
deriving Repr, DecidableEq

/-- The auth service's module state: the current session and the
`localStorage` entry under the key `smolquery.session` (`none` when
absent). -/
structure AuthState where
  currentSession : UserSession
  storage : Option UserSessionPayload := none
deriving Repr, DecidableEq

/-- `saveToStorage`: `localStorage.setItem` of the serialized session
under a try/catch that swallows storage failures. `persistOk = false`
models a throwing storage layer: the entry is left unchanged and no
error escapes. -/
def saveToStorage (persistOk : Bool) (storage : Option UserSessionPayload)
    (s : UserSession) : Option UserSessionPayload :=
  if persistOk then some s.toJSON else storage

/-- `signInWithToken`: builds the session
(`expiresAt = payload.expiresIn ? new Date(Date.now() + expiresIn * 1000) : null`,
note the truthiness test, under which a zero `expiresIn` yields `null`;
`provider ?? 'token'`), replaces the current session, persists it
best-effort and returns it. The `UserSession` constructor round-trips
`expiresAt` through an ISO string, which is the identity on the
timestamp. -/
def signInWithToken (p : SignInPayload) (now : Int) (persistOk : Bool)
    (st : AuthState) : UserSession × AuthState :=
  let expiresAt : Option Int :=
    match p.expiresIn with
    | some e => if e == 0 then none else some (now + e * 1000)
    | none => none
  let s : UserSession :=
    { provider := some (p.provider.getD "token")
      userId := p.userId
      accessToken := some p.accessToken
      refreshToken := p.refreshToken
      expiresAt := expiresAt }
  (s, { currentSession := s, storage := saveToStorage persistOk st.storage s })

/-! ## Execute endpoint (src/unnamed/part_002, execute.ts) -/

/-- An inbound `ExecuteRequest`. `query` is an arbitrary runtime value
(`none` for absent/`null`/`undefined`); `authToken` collapses
absent/`null` to `none`; `id`/`name` are optional strings. -/
structure ExecuteRequest where
  query : Option JsValue := none
  authToken : Option String := none
  id : Option String := none
  name : Option String := none
deriving Repr, DecidableEq

/-- An `ExecuteResponse` body. `schema`/`jobId` are omitted (`none`) on
error responses; `error` is `null` (`none`) on success. -/
structure ExecuteResponseBody where
  results : List Row := []
  schema : Option (List SchemaField) := none
  status : String
  error : Option String := none
  jobId : Option String := none
deriving Repr, DecidableEq

/-- The `{statusCode, body}` pair returned by the endpoint. -/
structure EndpointResult where
  statusCode : Nat
  body : ExecuteResponseBody
deriving Repr, DecidableEq

/-- The endpoint's input check
`!body.query || typeof body.query !== 'string' || !body.query.trim()`:
gives the SQL text when `query` is a truthy string with non-blank trim,
else `none`. -/
def endpointQueryText (req : ExecuteRequest) : Option String :=
  match req.query with
  | some (.str s) => if trimJs s == "" then none else some s
  | _ => none

/-- The endpoint's session step: `if (body.authToken) session = await
authService.signInWithToken({accessToken: body.authToken})` — only a
truthy (present, non-empty) token creates a session. -/
def endpointSession (req : ExecuteRequest) (now : Int) (persistOk : Bool)
    (st : AuthState) : Option UserSession × AuthState :=
  match req.authToken with
  | some t =>
    if t == "" then (none, st)
    else
      let r := signInWithToken { accessToken := t } now persistOk st
      (some r.1, r.2)
  | none => (none, st)

/-- The query payload the endpoint builds:
`{id: body.id ?? local-<Date.now().toString(36)>, sql: body.query, name: body.name}`. -/
def endpointQueryPayload (req : ExecuteRequest) (now : Int) (sqlText : String) :
    QueryPayload :=
  { id := some (req.id.getD ("local-" ++ natToBase36 now.toNat))
    sql := some sqlText
    name := req.name }

/-- The fixed 400 response. -/
def queryRequiredResponse : EndpointResult :=
  { statusCode := 400
    body := { results := [], status := "error", error := some "Query is required" } }

/-- The fixed 401 response. -/
def authFailedResponse : EndpointResult :=
  { statusCode := 401
    body := { results := [], status := "error", error := some "Authentication failed" } }

/-- `executeEndpoint` (the POST `/api/query/execute` handler logic).
All interior throws are caught, so the result type carries no error
case. -/
def executeEndpoint (req : ExecuteRequest) (persistOk : Bool) (st : AuthState)
    (env : ExecEnv) : EndpointResult × AuthState :=
  match endpointQueryText req with
  | none => (queryRequiredResponse, st)
  | some sqlText =>
    if req.authToken == some "invalid-token" then (authFailedResponse, st)
    else
      let sessSt := endpointSession req env.now persistOk st
      let qpayload := endpointQueryPayload req env.now sqlText
      match executeQuery (.payload (some qpayload)) sessSt.1 env with
      | (.ok r, _) =>
        ({ statusCode := 200
           body := { results := r.rows
                     schema := some r.schema
                     status := "success"
                     error := none
                     jobId := r.jobId } }, sessSt.2)
      | (.error m, _) =>
        if m == "User not authenticated" then (authFailedResponse, sessSt.2)
        else
          ({ statusCode := 500
             body := { results := []
                       status := "error"
                       error := some (if m == "" then "Query execution failed" else m) } },
           sessSt.2)

/-! ## Panel manager (src/src/components/PanelManager.vue) -/

/-- The component state of `PanelManager`: the four visibility flags,
the query text, the results collection and the busy flag. -/
structure PMState where
  showResults : Bool := false
  showSchema : Bool := false
  showSettings : Bool := false
  showKeyboardHelp : Bool := false
  query : String := ""
  queryResults : List Row := []
  isExecutingQuery : Bool := false
deriving Repr, DecidableEq

/-- The hardcoded rows the component's mock execution step yields. -/
def sampleQueryResults : List Row :=
  [[("id", JsValue.num 1), ("name", JsValue.str "Sample Result 1")],
   [("id", JsValue.num 2), ("name", JsValue.str "Sample Result 2")]]

/-- `handleExecuteQuery`: no-op on blank query text; otherwise sets the
busy flag, auto-reveals the results panel, then runs
`try { await <delay promise>; results := <sample rows> } catch { results := [] }
finally { busy := false }`. `delayOutcome` is the settlement of the
awaited promise (in the source a `setTimeout` promise that always
resolves; the rejected case exercises the catch/finally structure). -/
def handleExecuteQuery (delayOutcome : Except String Unit) (s : PMState) : PMState :=
  if trimJs s.query == "" then s
  else
    let s1 := { s with isExecutingQuery := true, showResults := true }
    let s2 :=
      match delayOutcome with
      | .ok _ => { s1 with queryResults := sampleQueryResults }
      | .error _ => { s1 with queryResults := [] }
    { s2 with isExecutingQuery := false }

/-- A keyboard event, restricted to the fields `onKeydown` reads. -/
structure KeyEvent where
  ctrlKey : Bool := false
  key : String
deriving Repr, DecidableEq

/-- `closeAllPanels`. -/
def closeAllPanels (s : PMState) : PMState :=
  { s with showResults := false
           showSchema := false
           showSettings := false
           showKeyboardHelp := false }

/-- `onKeydown`: the keyboard dispatcher. The returned Boolean records
whether `preventDefault` was called. -/
def onKeydown (e : KeyEvent) (delayOutcome : Except String Unit) (s : PMState) :
    PMState × Bool :=
  if e.ctrlKey then
    if e.key == "r" then ({ s with showResults := !s.showResults }, true)
    else if e.key == "s" then ({ s with showSchema := !s.showSchema }, true)
    else if e.key == "," then ({ s with showSettings := !s.showSettings }, true)
    else if e.key == "e" then (handleExecuteQuery delayOutcome s, true)
    else if e.key == "/" then ({ s with showKeyboardHelp := !s.showKeyboardHelp }, true)
    else (s, false)
  else if e.key == "Escape" then (closeAllPanels s, true)
  else (s, false)

/-- The chords the handler recognizes (the five Ctrl chords and
unmodified Escape). -/
def recognizedChord (e : KeyEvent) : Bool :=
  if e.ctrlKey then
    e.key == "r" || e.key == "s" || e.key == "," || e.key == "e" || e.key == "/"
  else e.key == "Escape"

/-! ## Claim C1: `UserSession.isAuthenticated` -/

/-- Claim C1, counterexample: the claim states `isAuthenticated()` is
true whenever `accessToken` is non-null and `expiresAt` is null, but a
session whose `accessToken` is the empty string is non-null yet
unauthenticated (the source tests JS truthiness, `!this.accessToken`,
not nullness). -/
theorem claim_C1_counterexample :
    ({ accessToken := some "" } : UserSession).accessToken ≠ none ∧
    ({ accessToken := some "" } : UserSession).expiresAt = none ∧
    UserSession.isAuthenticated { accessToken := some "" } 0 = false :=
  ⟨by decide, rfl, rfl⟩

/-- Claim C1 (amended): for every `UserSession` and every instant `now`,
`isAuthenticated()` is true iff `accessToken` is non-null and non-empty
and (`expiresAt` is null or `expiresAt ≥ now` — the session is expired
exactly when `expiresAt < now`, so `expiresAt = now` still counts as
authenticated). -/
theorem claim_C1_amended (s : UserSession) (now : Int) :
    s.isAuthenticated now = true ↔
      ((∃ t, s.accessToken = some t ∧ t ≠ "") ∧
       (s.expiresAt = none ∨ ∃ e, s.expiresAt = some e ∧ now ≤ e)) := by
  cases hA : s.accessToken with
  | none => simp [UserSession.isAuthenticated, jsFalsyOptStr, hA]
  | some t =>
    cases hE : s.expiresAt with
    | none =>
      by_cases ht : t = "" <;>
        simp [UserSession.isAuthenticated, jsFalsyOptStr, hA, hE, ht]
    | some e =>
      by_cases ht : t = "" <;> by_cases he : e < now <;>
        simp [UserSession.isAuthenticated, jsFalsyOptStr, hA, hE, ht, he]
      all_goals omega

/-- Claim C1 witness: a session expiring exactly at the evaluation
instant is still authenticated. -/
theorem claim_C1_amended_witness :
    UserSession.isAuthenticated { accessToken := some "tok", expiresAt := some 5 } 5 = true :=
  (claim_C1_amended { accessToken := some "tok", expiresAt := some 5 } 5).mpr
    ⟨⟨"tok", rfl, by decide⟩, Or.inr ⟨5, rfl, le_refl 5⟩⟩

/-! ## Claim C2: `Query` JSON round-trip -/

/-- Claim C2: for every constructed `Query` (any string `id`/`sql`),
`Query.fromJSON(q.toJSON())` succeeds and returns a `Query` equal to `q`
field-for-field, and the serialized `lastError` is always explicitly
present (an explicit `null` stays `null`, never `undefined`/omitted). -/
theorem claim_C2 (q : Query) (now : Int) :
    Query.fromJSON (some q.toJSON) now = .ok q ∧
    q.toJSON.lastError = some q.lastError :=
  ⟨rfl, rfl⟩

/-! ## Claim C3: `Query.validate` -/

/-- Claim C3: `validate()` returns `true` exactly when `id` and `sql`
are non-empty, and otherwise throws an error listing exactly the failing
fields among `id is required` / `sql is required`, joined by `, `,
always `id` before `sql` (under the fixed aggregate prefix
`Query validation failed: `). -/
theorem claim_C3 (q : Query) :
    (q.validate = .ok true ↔ (q.id ≠ "" ∧ q.sql ≠ "")) ∧
    (q.id = "" → q.sql = "" →
      q.validate = .error "Query validation failed: id is required, sql is required") ∧
    (q.id = "" → q.sql ≠ "" →
      q.validate = .error "Query validation failed: id is required") ∧
    (q.id ≠ "" → q.sql = "" →
      q.validate = .error "Query validation failed: sql is required") := by
  by_cases h1 : q.id = "" <;> by_cases h2 : q.sql = "" <;>
    simp [Query.validate, h1, h2, String.intercalate, beq_iff_eq] <;>
    decide

/-- Claim C3 witness: both fields empty produces the two-entry aggregate
message, `id` first. -/
theorem claim_C3_witness :
    Query.validate { id := "", sql := "", createdAt := 0, updatedAt := 0 } =
      .error "Query validation failed: id is required, sql is required" :=
  (claim_C3 { id := "", sql := "", createdAt := 0, updatedAt := 0 }).2.1 rfl rfl

/-! ## Claim C4: `executeQuery` error handling -/

/-- Claim C4: (1) a payload that fails construction raises the typed
construction error with no query state touched; (2) an instance (or
constructed query) that fails `validate()` raises the validation error
with the query's `status`/`lastError`/`updatedAt` untouched; (3) any
exception raised after execution has begun (either branch) leaves the
query with `status = failed`, `lastError` = the stringified message and
a refreshed `updatedAt`, and propagates to the caller unchanged — the
adapter never swallows an execution failure. -/
theorem claim_C4 (input : QueryInput) (session : Option UserSession) (env : ExecEnv) :
    (∀ e, normalizeQuery input env.now = .error e →
      executeQuery input session env = (.error e, originalQueryOf input)) ∧
    (∀ q0 e, normalizeQuery input env.now = .ok q0 → q0.validate = .error e →
      executeQuery input session env = (.error e, some q0)) ∧
    (∀ q0 e qs, normalizeQuery input env.now = .ok q0 → q0.validate = .ok true →
      executeQuery input session env = (.error e, qs) →
      qs = some { q0 with status := QueryStatus.failed
                          lastError := some (errToLastError e)
                          updatedAt := env.now }) := by
  refine ⟨?_, ?_, ?_⟩
  · intro e hn
    simp [executeQuery, hn]
  · intro q0 e hn hv
    simp [executeQuery, hn, hv]
  · intro q0 e qs hn hv hx
    cases session with
    | none =>
      simp only [executeQuery, hn, hv] at hx
      split_ifs at hx <;> simp_all
    | some s =>
      by_cases hAuth : s.isAuthenticated env.now
      · cases hUp : env.upstream with
        | ok r => simp [executeQuery, hn, hv, hAuth, hUp] at hx
        | error e2 =>
          simp [executeQuery, hn, hv, hAuth, hUp] at hx
          obtain ⟨he, hqs⟩ := hx
          subst he
          exact hqs.symm
      · simp only [executeQuery, hn, hv, hAuth] at hx
        split_ifs at hx <;> simp_all

/-- Claim C4 witness: an authenticated execution whose upstream call
throws `boom` ends with a failed query carrying that message, refreshed
at the call instant. -/
theorem claim_C4_witness :
    (executeQuery (.inst { id := "q1", sql := "select 1", createdAt := 0, updatedAt := 0 })
        (some { accessToken := some "tok" }) { now := 7, upstream := .error "boom" }).2 =
      some { id := "q1", sql := "select 1", createdAt := 0, updatedAt := 7,
             status := QueryStatus.failed, lastError := some (errToLastError "boom") } :=
  (claim_C4 (.inst { id := "q1", sql := "select 1", createdAt := 0, updatedAt := 0 })
      (some { accessToken := some "tok" }) { now := 7, upstream := .error "boom" }).2.2
    { id := "q1", sql := "select 1", createdAt := 0, updatedAt := 0 } "boom"
    (executeQuery (.inst { id := "q1", sql := "select 1", createdAt := 0, updatedAt := 0 })
        (some { accessToken := some "tok" }) { now := 7, upstream := .error "boom" }).2
    rfl rfl rfl

/-! ## Claim C5: the deterministic mock path -/

/-- The claim's branch-(b) predicate as written: the SQL contains the
literal text `from numbers` (case-insensitively). The code instead
tests `/from\s+numbers/i`, which tolerates any non-empty whitespace run
between the two words. -/
def containsFromNumbersLiteral (sql : String) : Bool :=
  listHasInfix "from numbers".data (sql.data.map Char.toLower)

/-- `numbersMockRows` in closed form. -/
theorem numbersMockRows_eq :
    numbersMockRows =
      [[("n", JsValue.num 1)], [("n", JsValue.num 2)], [("n", JsValue.num 3)]] := rfl

/-- Whether `session?.isAuthenticated() ?? false` holds. -/
def sessionIsAuth (session : Option UserSession) (now : Int) : Bool :=
  match session with
  | some s => s.isAuthenticated now
  | none => false

/-- The closed-form result of the mock path, as a function of the SQL
text, the query id and the clock alone: branch (a) for non-SELECT text,
branch (b) — with the code's whitespace-run predicate — the three `n`
rows with inferred schema, branch (c) one `raw_sql`/`ranAt` row with
inferred schema. -/
def mockPathResult (id sql : String) (now : Int) : QueryResult :=
  if !isSelect sql then { jobId := some ("local-" ++ id), rows := [], schema := [] }
  else if hasFromNumbers sql then
    { jobId := some ("local-" ++ id)
      rows := [[("n", JsValue.num 1)], [("n", JsValue.num 2)], [("n", JsValue.num 3)]]
      schema := [{ name := "n", type := "number" }] }
  else
    { jobId := some ("local-" ++ id)
      rows := [[("raw_sql", JsValue.str (trimJs sql)), ("ranAt", JsValue.str (dateToISOString now))]]
      schema := [{ name := "raw_sql", type := "string" }, { name := "ranAt", type := "string" }] }

/-- Claim C5, counterexample: `select * from  numbers` (two spaces
between `from` and `numbers`) does not contain the literal text
`from numbers`, so the claim prescribes branch (c) (a single
`raw_sql`/`ranAt` row), but the code returns the three `n` rows —
branch (b) is selected by `/from\s+numbers/i`, not by a literal
substring test. -/
theorem claim_C5_counterexample :
    containsFromNumbersLiteral "select * from  numbers" = false ∧
    isSelect "select * from  numbers" = true ∧
    (executeQuery
        (.inst { id := "qq", sql := "select * from  numbers", createdAt := 0, updatedAt := 0 })
        none { now := 0, upstream := .error "unused" }).1 =
      .ok { jobId := some "local-qq"
            rows := [[("n", JsValue.num 1)], [("n", JsValue.num 2)], [("n", JsValue.num 3)]]
            schema := [{ name := "n", type := "number" }] } ∧
    ([[("n", JsValue.num 1)], [("n", JsValue.num 2)], [("n", JsValue.num 3)]] : List Row) ≠
      [[("raw_sql", JsValue.str (trimJs "select * from  numbers")),
        ("ranAt", JsValue.str (dateToISOString 0))]] :=
  ⟨rfl, rfl, rfl, by decide⟩

/-- Claim C5 (amended): on the unauthenticated/mock path, for every
valid query the result is fully determined by the SQL text, the query id
and the clock, in this case order: (a) SQL not matching
`/^\s*select\b/i` gives empty rows and schema; (b) SQL containing
(case-insensitively) `from` followed by one or more whitespace
characters and then `numbers` gives exactly the rows
`n=1, n=2, n=3` with schema inferred from key names and runtime value
types; (c) otherwise one `raw_sql` (trimmed SQL) / `ranAt` (ISO now) row
with inferred schema — and in all three branches the query ends
`completed` with jobId `local-<query id>`. -/
theorem claim_C5_amended (q : Query) (session : Option UserSession) (env : ExecEnv)
    (hAuth : sessionIsAuth session env.now = false)
    (hv : q.validate = .ok true) :
    executeQuery (.inst q) session env =
      (.ok (mockPathResult q.id q.sql env.now),
       some { q with status := QueryStatus.completed, updatedAt := env.now }) := by
  cases session with
  | none =>
    by_cases hs : isSelect q.sql
    · by_cases hf : hasFromNumbers q.sql <;>
        simp [executeQuery, normalizeQuery, hv, mockPathResult, hs, hf,
              numbersMockRows_eq, fakeSchemaFromRows, JsValue.typeName]
    · simp [executeQuery, normalizeQuery, hv, mockPathResult, hs]
  | some s =>
    have hA : s.isAuthenticated env.now = false := by
      simpa [sessionIsAuth] using hAuth
    by_cases hs : isSelect q.sql
    · by_cases hf : hasFromNumbers q.sql <;>
        simp [executeQuery, normalizeQuery, hv, hA, mockPathResult, hs, hf,
              numbersMockRows_eq, fakeSchemaFromRows, JsValue.typeName]
    · simp [executeQuery, normalizeQuery, hv, hA, mockPathResult, hs]

/-- Claim C5 witness: `SELECT * FROM numbers`, unauthenticated, gives
exactly the three `n` rows and a completed query. -/
theorem claim_C5_amended_witness :
    executeQuery
        (.inst { id := "n1", sql := "SELECT * FROM numbers", createdAt := 0, updatedAt := 0 })
        none { now := 4, upstream := .error "unused" } =
      (.ok (mockPathResult "n1" "SELECT * FROM numbers" 4),
       some { id := "n1", sql := "SELECT * FROM numbers", createdAt := 0, updatedAt := 4,
              status := QueryStatus.completed }) :=
  claim_C5_amended
    { id := "n1", sql := "SELECT * FROM numbers", createdAt := 0, updatedAt := 0 }
    none { now := 4, upstream := .error "unused" } rfl rfl

/-! ## Claim C6: the execute endpoint -/

/-- Claim C6: the endpoint (a total function — no exception escapes)
maps (1) a missing/non-string/blank `query` to 400 `Query is required`;
(2) the literal sentinel `invalid-token` to 401
`Authentication failed`; (3) adapter success to 200 with
`{results, schema, status: success, error: null, jobId}`; (4) an
adapter error with message exactly `User not authenticated` to 401;
(5) any other adapter error to 500 carrying its stringified message. -/
theorem claim_C6 (req : ExecuteRequest) (persistOk : Bool) (st : AuthState) (env : ExecEnv) :
    (endpointQueryText req = none →
      executeEndpoint req persistOk st env = (queryRequiredResponse, st)) ∧
    (∀ s, endpointQueryText req = some s → req.authToken = some "invalid-token" →
      executeEndpoint req persistOk st env = (authFailedResponse, st)) ∧
    (∀ s r oq, endpointQueryText req = some s → req.authToken ≠ some "invalid-token" →
      executeQuery (.payload (some (endpointQueryPayload req env.now s)))
          (endpointSession req env.now persistOk st).1 env = (.ok r, oq) →
      (executeEndpoint req persistOk st env).1 =
        { statusCode := 200
          body := { results := r.rows, schema := some r.schema, status := "success",
                    error := none, jobId := r.jobId } }) ∧
    (∀ s oq, endpointQueryText req = some s → req.authToken ≠ some "invalid-token" →
      executeQuery (.payload (some (endpointQueryPayload req env.now s)))
          (endpointSession req env.now persistOk st).1 env =
        (.error "User not authenticated", oq) →
      (executeEndpoint req persistOk st env).1 = authFailedResponse) ∧
    (∀ s m oq, endpointQueryText req = some s → req.authToken ≠ some "invalid-token" →
      executeQuery (.payload (some (endpointQueryPayload req env.now s)))
          (endpointSession req env.now persistOk st).1 env = (.error m, oq) →
      m ≠ "User not authenticated" → m ≠ "" →
      (executeEndpoint req persistOk st env).1 =
        { statusCode := 500
          body := { results := [], status := "error", error := some m } }) := by
  refine ⟨?_, ?_, ?_, ?_, ?_⟩
  · intro hqt
    simp [executeEndpoint, hqt]
  · intro s hqt hat
    simp [executeEndpoint, hqt, hat]
  · intro s r oq hqt hat hq
    simp [executeEndpoint, hqt, hat, hq, beq_iff_eq]
  · intro s oq hqt hat hq
    simp [executeEndpoint, hqt, hat, hq, beq_iff_eq]
  · intro s m oq hqt hat hq hm hm2
    simp [executeEndpoint, hqt, hat, hq, hm, hm2, beq_iff_eq]

/-- Claim C6 witness: a plain unauthenticated `select 1` request gets a
200 success response carrying the mock row and job id. -/
theorem claim_C6_witness :
    (executeEndpoint { query := some (.str "select 1") } true { currentSession := {} }
        { now := 3, upstream := .error "unused" }).1 =
      { statusCode := 200
        body := { results := [[("raw_sql", JsValue.str "select 1"),
                               ("ranAt", JsValue.str (dateToISOString 3))]]
                  schema := some [{ name := "raw_sql", type := "string" },
                                  { name := "ranAt", type := "string" }]
                  status := "success"
                  error := none
                  jobId := some "local-local-3" } } :=
  (claim_C6 { query := some (.str "select 1") } true { currentSession := {} }
      { now := 3, upstream := .error "unused" }).2.2.1 "select 1"
    { jobId := some "local-local-3"
      rows := [[("raw_sql", JsValue.str "select 1"), ("ranAt", JsValue.str (dateToISOString 3))]]
      schema := [{ name := "raw_sql", type := "string" }, { name := "ranAt", type := "string" }] }
    (executeQuery
        (.payload (some (endpointQueryPayload { query := some (.str "select 1") } 3 "select 1")))
        (endpointSession { query := some (.str "select 1") } 3 true { currentSession := {} }).1
        { now := 3, upstream := .error "unused" }).2
    rfl (by decide) rfl

/-! ## Claim C7: keyboard dispatch -/

/-- Claim C7: from every starting state, Ctrl+R toggles only
`resultsOpen`, Ctrl+S only `schemaOpen`, Ctrl+, only `settingsOpen`,
Ctrl+/ only `helpOpen` (each equality pins every other state field
unchanged), unmodified Escape sets all four flags to false regardless of
prior state, and any chord outside the recognized set leaves the state
untouched (and unsuppressed). -/
theorem claim_C7 (s : PMState) (o : Except String Unit) :
    onKeydown { ctrlKey := true, key := "r" } o s =
      ({ s with showResults := !s.showResults }, true) ∧
    onKeydown { ctrlKey := true, key := "s" } o s =
      ({ s with showSchema := !s.showSchema }, true) ∧
    onKeydown { ctrlKey := true, key := "," } o s =
      ({ s with showSettings := !s.showSettings }, true) ∧
    onKeydown { ctrlKey := true, key := "/" } o s =
      ({ s with showKeyboardHelp := !s.showKeyboardHelp }, true) ∧
    onKeydown { ctrlKey := false, key := "Escape" } o s =
      ({ s with showResults := false, showSchema := false,
                showSettings := false, showKeyboardHelp := false }, true) ∧
    (∀ e : KeyEvent, recognizedChord e = false → onKeydown e o s = (s, false)) := by
  refine ⟨rfl, rfl, rfl, rfl, rfl, ?_⟩
  intro e he
  cases e with
  | mk ctrl key =>
    cases ctrl <;> simp [recognizedChord, beq_iff_eq] at he <;>
      simp [onKeydown, beq_iff_eq, he]

/-- Claim C7 witness: the unrecognized chord Ctrl+X neither changes
state nor suppresses the default. -/
theorem claim_C7_witness :
    onKeydown { ctrlKey := true, key := "x" } (.ok ()) ({} : PMState) = ({}, false) :=
  (claim_C7 {} (.ok ())).2.2.2.2.2 { ctrlKey := true, key := "x" } rfl

/-! ## Claim C8: the execution routine -/

/-- Claim C8, counterexample: the routine does not invoke the Query
Execution Adapter. On the query text `select * from numbers` it leaves
the two hardcoded sample rows in the results collection, while the
adapter (`executeQuery`, unauthenticated) returns the three `n` rows for
that SQL — and the two row sets differ. -/
theorem claim_C8_counterexample :
    (handleExecuteQuery (.ok ()) { query := "select * from numbers" }).queryResults =
      sampleQueryResults ∧
    (executeQuery
        (.inst { id := "c8", sql := "select * from numbers", createdAt := 0, updatedAt := 0 })
        none { now := 0, upstream := .error "unused" }).1 =
      .ok { jobId := some "local-c8"
            rows := [[("n", JsValue.num 1)], [("n", JsValue.num 2)], [("n", JsValue.num 3)]]
            schema := [{ name := "n", type := "number" }] } ∧
    sampleQueryResults ≠ [[("n", JsValue.num 1)], [("n", JsValue.num 2)], [("n", JsValue.num 3)]] :=
  ⟨rfl, rfl, by decide⟩

/-- Claim C8 (amended): with empty or all-whitespace query text the
routine is a no-op (in particular `isExecuting` is not raised and the
results panel is not opened); otherwise it forces `resultsOpen = true`,
runs the component's local mock execution step (not the Query Execution
Adapter), replaces the results collection with the two hardcoded sample
rows on success or clears it when the awaited step raises, and always
ends with `isExecuting = false`, including on the raising path. -/
theorem claim_C8_amended (s : PMState) (o : Except String Unit) :
    (trimJs s.query = "" → handleExecuteQuery o s = s) ∧
    (trimJs s.query ≠ "" →
      handleExecuteQuery o s =
        { s with showResults := true
                 queryResults := match o with | .ok _ => sampleQueryResults | .error _ => []
                 isExecutingQuery := false }) := by
  constructor
  · intro h
    simp [handleExecuteQuery, h]
  · intro h
    cases o <;> simp [handleExecuteQuery, beq_iff_eq, h]

/-- Claim C8 witness: whitespace-only query text is a strict no-op. -/
theorem claim_C8_amended_witness :
    handleExecuteQuery (.ok ()) ({ query := "   " } : PMState) = { query := "   " } :=
  (claim_C8_amended { query := "   " } (.ok ())).1 rfl

/-! ## Claim C9: `signInWithToken` -/

/-- Claim C9, counterexample: the claim says `expiresAt = now +
expiresIn seconds` whenever `expiresIn` is given, but a given
`expiresIn` of `0` is falsy in the source's `payload.expiresIn ? ... :
null`, so the session gets a null `expiresAt` instead of `now`. -/
theorem claim_C9_counterexample :
    (signInWithToken { accessToken := "t", expiresIn := some 0 } 5 true
        { currentSession := {} }).1.expiresAt = none ∧
    (none : Option Int) ≠ some (5 + 0 * 1000) :=
  ⟨rfl, by decide⟩

/-- Claim C9 (amended): `signIn` builds a session with provider
defaulting to `token`, `userId`/`refreshToken` defaulting to null,
and `expiresAt = now + expiresIn seconds` when `expiresIn` is given and
non-zero (a zero `expiresIn` is treated like an absent one, yielding
null); the new session replaces the current session, is persisted when
the storage layer works, and is returned; a failing storage layer leaves
the stored entry unchanged and never changes the returned session. -/
theorem claim_C9_amended (p : SignInPayload) (now : Int) (persistOk : Bool) (st : AuthState) :
    (signInWithToken p now persistOk st).1.provider = some (p.provider.getD "token") ∧
    (signInWithToken p now persistOk st).1.userId = p.userId ∧
    (signInWithToken p now persistOk st).1.accessToken = some p.accessToken ∧
    (signInWithToken p now persistOk st).1.refreshToken = p.refreshToken ∧
    (signInWithToken p now persistOk st).1.expiresAt =
      (match p.expiresIn with
       | some e => if e = 0 then none else some (now + e * 1000)
       | none => none) ∧
    (signInWithToken p now persistOk st).2.currentSession =
      (signInWithToken p now persistOk st).1 ∧
    (persistOk = true →
      (signInWithToken p now persistOk st).2.storage =
        some (signInWithToken p now persistOk st).1.toJSON) ∧
    (persistOk = false →
      (signInWithToken p now persistOk st).2.storage = st.storage) ∧
    (signInWithToken p now true st).1 = (signInWithToken p now false st).1 := by
  refine ⟨rfl, rfl, rfl, rfl, ?_, rfl, ?_, ?_, rfl⟩
  · cases hE : p.expiresIn with
    | none => simp [signInWithToken, hE]
    | some e =>
      by_cases he : e = 0 <;> simp [signInWithToken, hE, he, beq_iff_eq]
  · intro h
    subst h
    simp [signInWithToken, saveToStorage]
  · intro h
    subst h
    simp [signInWithToken, saveToStorage]

/-- Claim C9 witness: a concrete sign-in with working persistence stores
exactly the serialized new session. -/
theorem claim_C9_amended_witness :
    (signInWithToken { accessToken := "t", expiresIn := some 10 } 5 true
        { currentSession := {} }).2.storage =
      some ((signInWithToken { accessToken := "t", expiresIn := some 10 } 5 true
        { currentSession := {} }).1.toJSON) :=
  (claim_C9_amended { accessToken := "t", expiresIn := some 10 } 5 true
      { currentSession := {} }).2.2.2.2.2.2.1 rfl

/-! ## Claim C10: the `Panel` constructor -/

/-- Claim C10: construction throws the invalid-payload error exactly for
non-object arguments (null, undefined, and every primitive), and
succeeds on every object payload — even an empty one — taking
`id`/`type`/`title` as given, defaulting `open` to true when
null/undefined and `order` to 0 whenever the field is not a number. -/
theorem claim_C10 (v : PanelInput) :
    ((∀ p, v ≠ .obj p) → Panel.construct v = .error "Invalid Panel payload") ∧
    (∀ p, v = .obj p →
      Panel.construct v =
        .ok { id := p.id, type := p.type, title := p.title,
              openFlag := p.openFlag.getD true,
              order := match p.order with | some (.num n) => n | _ => 0 }) := by
  constructor
  · intro hne
    cases v with
    | obj p => exact absurd rfl (hne p)
    | undef => rfl
    | null => rfl
    | bool b => cases b <;> rfl
    | num n => simp [Panel.construct, PanelInput.isFalsy, PanelInput.typeName]
    | str s => simp [Panel.construct, PanelInput.isFalsy, PanelInput.typeName]
  · intro p hv
    subst hv
    rfl

/-- Claim C10 witness: the empty object payload constructs a panel with
all defaults, while `null` is rejected. -/
theorem claim_C10_witness :
    Panel.construct (.obj {}) =
      .ok { id := none, type := none, title := none, openFlag := true, order := 0 } ∧
    Panel.construct .null = .error "Invalid Panel payload" :=
  ⟨(claim_C10 (.obj {})).2 {} rfl,
   (claim_C10 .null).1 (fun _ h => PanelInput.noConfusion h)⟩

end SmolQuery
